import Mathlib

/-!
ASR native layer: `whisper_engine`, `whisper_jni`, `audio_utils`

A shallow embedding of the C++ sources under `app/src/main/cpp` and the
properties of the JNI surface that follow from it.

* The Android log is an append-only list of `LogLine`s; every `LOGI`/`LOGE`
  of the source appends one line.  Constructor and destructor of
  `WhisperEngine` log, so object creation and deletion are visible in it.
* `static WhisperEngine* g_whisper_engine` is an `Option WhisperEngine`
  (`none` is `nullptr`); the global is the only owner of the engine.
* Java byte arrays handed to `audio_utils.cpp` live in a small array heap
  (`JNIEnv.arrays`), a `jbyteArray` being an index into it.
-/

namespace ASR

/-! ## Android log -/

/-- Log priorities used by the sources (`ANDROID_LOG_INFO`, `ANDROID_LOG_ERROR`). -/
inductive LogPriority
  | ANDROID_LOG_INFO
  | ANDROID_LOG_ERROR
  deriving DecidableEq, Repr

/-- One line written by `__android_log_print`: priority, tag and formatted text. -/
structure LogLine where
  prio : LogPriority
  tag : String
  text : String
  deriving DecidableEq, Repr

/-- A signed byte of a Java `byte[]`. The sources only copy bytes around, they
never compute with them. -/
abbrev jbyte := Int

/-! ## whisper_engine.h / whisper_engine.cpp -/

/-- The class `WhisperEngine`: its only data member is `initialized_`. -/
structure WhisperEngine where
  initialized_ : Bool
  deriving DecidableEq, Repr

namespace WhisperEngine

/-- Macro `LOGI` of whisper_engine.cpp (`LOG_TAG "WhisperEngine"`). -/
def LOGI (text : String) : LogLine := ⟨.ANDROID_LOG_INFO, "WhisperEngine", text⟩

/-- Macro `LOGE` of whisper_engine.cpp. -/
def LOGE (text : String) : LogLine := ⟨.ANDROID_LOG_ERROR, "WhisperEngine", text⟩

/-- The text returned by the placeholder body of `transcribe`. -/
def placeholderTranscription : String := "这是一个测试转录结果"

/-- Constructor `WhisperEngine::WhisperEngine() : initialized_(false)`. -/
def new (logcat : List LogLine) : WhisperEngine × List LogLine :=
  ({ initialized_ := false }, logcat ++ [LOGI "WhisperEngine created"])

/-- Destructor `WhisperEngine::~WhisperEngine()`. -/
def delete (_self : WhisperEngine) (logcat : List LogLine) : List LogLine :=
  logcat ++ [LOGI "WhisperEngine destroyed"]

/-- Method `bool WhisperEngine::initialize(const std::string& model_path)`.
The `try` block is an `Except` computation; none of its statements throws. -/
def initialize_ (self : WhisperEngine) (model_path : String) (logcat : List LogLine) :
    Bool × WhisperEngine × List LogLine :=
  let body : Except String (Bool × WhisperEngine × List LogLine) := do
    let logcat1 := logcat ++ [LOGI ("Initializing Whisper model from: " ++ model_path)]
    let self1 : WhisperEngine := { self with initialized_ := true }
    let logcat2 := logcat1 ++ [LOGI "Whisper model initialized successfully"]
    pure (true, self1, logcat2)
  match body with
  | .ok r => r
  | .error what => (false, self, logcat ++ [LOGE ("Failed to initialize Whisper model: " ++ what)])

/-- Method `std::string WhisperEngine::transcribe(const float* audio_data, size_t length)`.
The buffer behind `audio_data` is passed as the bytes it points to; the body
never reads it. -/
def transcribe (self : WhisperEngine) (_audio_data : List jbyte) (length : Nat)
    (logcat : List LogLine) : String × WhisperEngine × List LogLine :=
  if !self.initialized_ then
    ("", self, logcat)
  else
    let body : Except String (String × WhisperEngine × List LogLine) := do
      let logcat1 := logcat ++ [LOGI ("Transcribing audio data of length: " ++ toString length)]
      pure (placeholderTranscription, self, logcat1)
    match body with
    | .ok r => r
    | .error what => ("", self, logcat ++ [LOGE ("Transcription failed: " ++ what)])

/-- Inline accessor `bool isInitialized() const`. -/
def isInitialized (self : WhisperEngine) : Bool := self.initialized_

end WhisperEngine

/-! ## whisper_jni.cpp -/

/-- Process-wide state seen by whisper_jni.cpp: the global engine pointer and
the Android log. -/
structure Session where
  g_whisper_engine : Option WhisperEngine
  logcat : List LogLine
  deriving DecidableEq, Repr

/-- State at library load: `static WhisperEngine* g_whisper_engine = nullptr`. -/
def Session.initial : Session := { g_whisper_engine := none, logcat := [] }

/-- Value of `sizeof(float)` on the Android ABIs. -/
def sizeof_float : Nat := 4

/-- Call `env->NewStringUTF(s.c_str())`: the Java string with the same text. -/
def NewStringUTF (s : String) : String := s

/-- Entry point `Java_..._WhisperJNI_initializeModel(env, thiz, model_path)`;
returns the `jboolean` and the new process state. -/
def initializeModel (s : Session) (model_path : String) : Bool × Session :=
  let path := model_path
  let (engine, logcat) :=
    match s.g_whisper_engine with
    | none => WhisperEngine.new s.logcat
    | some e => (e, s.logcat)
  let (result, engine1, logcat1) := engine.initialize_ path logcat
  (result, { g_whisper_engine := some engine1, logcat := logcat1 })

/-- Entry point `Java_..._WhisperJNI_transcribeAudio(env, thiz, audio_data)`;
`audio_data` is given by the contents of the Java array. -/
def transcribeAudio (s : Session) (audio_data : List jbyte) : String × Session :=
  match s.g_whisper_engine with
  | none => (NewStringUTF "", s)
  | some engine =>
    let audio_bytes := audio_data
    let audio_length := audio_data.length
    let (result, engine1, logcat1) :=
      engine.transcribe audio_bytes (audio_length / sizeof_float) s.logcat
    (NewStringUTF result, { g_whisper_engine := some engine1, logcat := logcat1 })

/-- Entry point `Java_..._WhisperJNI_releaseModel(env, thiz)`. -/
def releaseModel (s : Session) : Session :=
  match s.g_whisper_engine with
  | some engine => { g_whisper_engine := none, logcat := engine.delete s.logcat }
  | none => s

/-- A call made by the Java side through the `WhisperJNI` class. -/
inductive Call
  | initializeModel (model_path : String)
  | transcribeAudio (audio_data : List jbyte)
  | releaseModel
  deriving Repr

/-- Effect of one JNI call on the process state. -/
def Call.apply (s : Session) : Call → Session
  | .initializeModel model_path => (ASR.initializeModel s model_path).2
  | .transcribeAudio audio_data => (ASR.transcribeAudio s audio_data).2
  | .releaseModel => ASR.releaseModel s

/-- State after a finite sequence of JNI calls, starting from `s`. -/
def runCalls (s : Session) (calls : List Call) : Session :=
  calls.foldl Call.apply s

/-- Invariant of the JNI surface: every engine the global pointer refers to has `initialized_` set. -/
def EngineInitialized (s : Session) : Prop :=
  ∀ e, s.g_whisper_engine = some e → e.initialized_ = true

/-! ## audio_utils.cpp -/

/-- A reference to a Java `byte[]`: its index in the array heap of `JNIEnv`. -/
abbrev jbyteArray := Nat

/-- A Java `int` argument. The sources only print the rates. -/
abbrev jint := Int

/-- A Java `double`. The only value the sources produce is the literal `0.5`,
which a binary double holds exactly, so rationals represent it faithfully. -/
abbrev jdouble := ℚ

/-- What audio_utils.cpp sees through `JNIEnv*`: the Java byte arrays that are
alive (a `jbyteArray` is an index into `arrays`) and the Android log. -/
structure JNIEnv where
  arrays : List (List jbyte)
  logcat : List LogLine
  deriving DecidableEq, Repr

namespace JNIEnv

/-- Call `env->GetArrayLength(array)`; `none` for a reference that names no array. -/
def GetArrayLength (env : JNIEnv) (array : jbyteArray) : Option Nat :=
  (env.arrays[array]?).map List.length

/-- Call `env->NewByteArray(length)`: a fresh zero-filled array, placed after all
existing ones; returns its reference. -/
def NewByteArray (env : JNIEnv) (length : Nat) : jbyteArray × JNIEnv :=
  (env.arrays.length, { env with arrays := env.arrays ++ [List.replicate length 0] })

/-- Call `env->GetByteArrayElements(array, 0)`: a native buffer holding the bytes. -/
def GetByteArrayElements (env : JNIEnv) (array : jbyteArray) : Option (List jbyte) :=
  env.arrays[array]?

/-- Call `env->SetByteArrayRegion(array, start, len, buf)`: copies `len` bytes of
`buf` into `array` from index `start`; undefined (`none`) when the region does
not fit the array or the buffer. -/
def SetByteArrayRegion (env : JNIEnv) (array : jbyteArray) (start len : Nat)
    (buf : List jbyte) : Option JNIEnv :=
  match env.arrays[array]? with
  | none => none
  | some old =>
    if start + len ≤ old.length ∧ len ≤ buf.length then
      some { env with
        arrays := env.arrays.set array (old.take start ++ buf.take len ++ old.drop (start + len)) }
    else
      none

/-- Call `env->ReleaseByteArrayElements(array, elems, mode)`: with mode `0` or
`JNI_COMMIT` (1) the buffer is copied back into the array, with `JNI_ABORT`
(2) it is dropped. -/
def ReleaseByteArrayElements (env : JNIEnv) (array : jbyteArray) (elems : List jbyte)
    (mode : Nat) : Option JNIEnv :=
  match env.arrays[array]? with
  | none => none
  | some _ =>
    if mode = 2 then some env
    else some { env with arrays := env.arrays.set array elems }

/-- Call of `__android_log_print` on the log carried by the environment. -/
def log (env : JNIEnv) (line : LogLine) : JNIEnv :=
  { env with logcat := env.logcat ++ [line] }

end JNIEnv

namespace AudioProcessor

/-- Macro `LOGI` of audio_utils.cpp (`LOG_TAG "AudioUtils"`). -/
def LOGI (text : String) : LogLine := ⟨.ANDROID_LOG_INFO, "AudioUtils", text⟩

/-- Entry point `Java_..._AudioProcessor_nativeResampleAudio(env, clazz, input_audio,
input_rate, output_rate)`; returns the reference of the result array and the
environment after the call, `none` when `input_audio` names no array. -/
def nativeResampleAudio (env : JNIEnv) (input_audio : jbyteArray)
    (input_rate output_rate : jint) : Option (jbyteArray × JNIEnv) := do
  let env0 := env.log (LOGI ("Native audio resampling: " ++ toString input_rate ++ " -> "
    ++ toString output_rate))
  let input_length ← env0.GetArrayLength input_audio
  let (result, env1) := env0.NewByteArray input_length
  let input_bytes ← env1.GetByteArrayElements input_audio
  let env2 ← env1.SetByteArrayRegion result 0 input_length input_bytes
  let env3 ← env2.ReleaseByteArrayElements input_audio input_bytes 0
  pure (result, env3)

/-- Entry point `Java_..._AudioProcessor_nativeCalculateEnergy(env, clazz, audio_data)`;
returns the `jdouble` and the environment after the call. -/
def nativeCalculateEnergy (env : JNIEnv) (_audio_data : jbyteArray) : jdouble × JNIEnv :=
  let env0 := env.log (LOGI "Calculating audio energy")
  (0.5, env0)

/-- Bytes of the array returned by `nativeResampleAudio`, read after the call. -/
def resampledBytes (env : JNIEnv) (input_audio : jbyteArray)
    (input_rate output_rate : jint) : Option (List jbyte) :=
  (nativeResampleAudio env input_audio input_rate output_rate).bind
    fun r => r.2.arrays[r.1]?

/-- The length bound of the resampling contract: `output_length` is within one
sample of `input_length * output_rate / input_rate` (exact division). -/
def lengthWithinOne (output_length input_length : Nat) (input_rate output_rate : jint) : Prop :=
  |(output_length : ℚ) - (input_length : ℚ) * (output_rate : ℚ) / (input_rate : ℚ)| ≤ 1

instance (output_length input_length : Nat) (input_rate output_rate : jint) :
    Decidable (lengthWithinOne output_length input_length input_rate output_rate) := by
  unfold lengthWithinOne; infer_instance

end AudioProcessor

end ASR

namespace ASR

/-! ## Facts about `WhisperEngine` -/

theorem WhisperEngine.placeholderTranscription_ne_empty :
    WhisperEngine.placeholderTranscription ≠ "" := by decide

theorem WhisperEngine.initialize_eq (self : WhisperEngine) (model_path : String)
    (logcat : List LogLine) :
    self.initialize_ model_path logcat =
      (true, { initialized_ := true },
        logcat ++ [WhisperEngine.LOGI ("Initializing Whisper model from: " ++ model_path),
          WhisperEngine.LOGI "Whisper model initialized successfully"]) := by
  simp [WhisperEngine.initialize_, pure, Except.pure]

theorem WhisperEngine.transcribe_of_initialized (self : WhisperEngine)
    (audio_data : List jbyte) (length : Nat) (logcat : List LogLine)
    (h : self.initialized_ = true) :
    self.transcribe audio_data length logcat =
      (WhisperEngine.placeholderTranscription, self,
        logcat ++ [WhisperEngine.LOGI ("Transcribing audio data of length: " ++ toString length)]) := by
  simp [WhisperEngine.transcribe, h, pure, Except.pure]

theorem WhisperEngine.transcribe_of_not_initialized (self : WhisperEngine)
    (audio_data : List jbyte) (length : Nat) (logcat : List LogLine)
    (h : self.initialized_ = false) :
    self.transcribe audio_data length logcat = ("", self, logcat) := by
  simp [WhisperEngine.transcribe, h]

/-! ## Facts about the JNI entry points of whisper_jni.cpp -/

theorem transcribeAudio_null (s : Session) (audio_data : List jbyte)
    (h : s.g_whisper_engine = none) : transcribeAudio s audio_data = ("", s) := by
  simp [transcribeAudio, h, NewStringUTF]

theorem transcribeAudio_not_initialized (s : Session) (audio_data : List jbyte)
    (e : WhisperEngine) (h : s.g_whisper_engine = some e) (he : e.initialized_ = false) :
    transcribeAudio s audio_data = ("", s) := by
  cases s with
  | mk g logcat =>
    simp only at h
    subst h
    simp [transcribeAudio, NewStringUTF, WhisperEngine.transcribe_of_not_initialized _ _ _ _ he]

theorem transcribeAudio_initialized (s : Session) (audio_data : List jbyte)
    (e : WhisperEngine) (h : s.g_whisper_engine = some e) (he : e.initialized_ = true) :
    transcribeAudio s audio_data =
      (WhisperEngine.placeholderTranscription,
        { g_whisper_engine := some e,
          logcat := s.logcat ++ [WhisperEngine.LOGI ("Transcribing audio data of length: "
            ++ toString (audio_data.length / sizeof_float))] }) := by
  simp [transcribeAudio, h, NewStringUTF, WhisperEngine.transcribe_of_initialized _ _ _ _ he]

theorem initializeModel_eq (s : Session) (model_path : String) :
    initializeModel s model_path =
      (true,
        { g_whisper_engine := some { initialized_ := true },
          logcat :=
            (match s.g_whisper_engine with
              | none => s.logcat ++ [WhisperEngine.LOGI "WhisperEngine created"]
              | some _ => s.logcat) ++
            [WhisperEngine.LOGI ("Initializing Whisper model from: " ++ model_path),
              WhisperEngine.LOGI "Whisper model initialized successfully"] }) := by
  unfold initializeModel
  cases h : s.g_whisper_engine <;>
    simp [WhisperEngine.new, WhisperEngine.initialize_eq]

theorem releaseModel_eq (s : Session) :
    releaseModel s =
      { g_whisper_engine := none,
        logcat :=
          match s.g_whisper_engine with
          | some _ => s.logcat ++ [WhisperEngine.LOGI "WhisperEngine destroyed"]
          | none => s.logcat } := by
  cases s with
  | mk g logcat =>
    cases g <;> simp [releaseModel, WhisperEngine.delete]

theorem EngineInitialized.apply (s : Session) (c : Call) (h : EngineInitialized s) :
    EngineInitialized (c.apply s) := by
  cases c with
  | initializeModel model_path =>
    intro e he
    simp only [Call.apply, initializeModel_eq, Option.some.injEq] at he
    rw [← he]
  | transcribeAudio audio_data =>
    cases hg : s.g_whisper_engine with
    | none =>
      simpa [Call.apply, transcribeAudio_null s audio_data hg] using h
    | some e0 =>
      intro e he
      simp only [Call.apply, transcribeAudio_initialized s audio_data e0 hg (h e0 hg),
        Option.some.injEq] at he
      rw [← he]
      exact h e0 hg
  | releaseModel =>
    intro e he
    simp [Call.apply, releaseModel_eq] at he

theorem EngineInitialized.runCalls (calls : List Call) (s : Session)
    (h : EngineInitialized s) : EngineInitialized (runCalls s calls) := by
  induction calls generalizing s with
  | nil => simpa [ASR.runCalls] using h
  | cons c cs ih =>
    have := ih (c.apply s) (EngineInitialized.apply s c h)
    simpa [ASR.runCalls] using this

theorem EngineInitialized.initial : EngineInitialized Session.initial := by
  intro e he
  simp [Session.initial] at he

end ASR

namespace ASR

/-! ## Properties of the `WhisperJNI` surface -/

/-- C1: on a session where `initializeModel` was never called, that is with the
global engine pointer null or pointing to an engine whose `initialized_` is
false, `transcribeAudio` returns the empty string for every audio byte array,
never the placeholder transcription, and leaves the process state as it was. -/
theorem transcribeAudio_uninitialized_fails (s : Session) (audio_data : List jbyte)
    (h : s.g_whisper_engine = none ∨
      ∃ e, s.g_whisper_engine = some e ∧ e.initialized_ = false) :
    (transcribeAudio s audio_data).1 = "" ∧
    (transcribeAudio s audio_data).1 ≠ WhisperEngine.placeholderTranscription ∧
    (transcribeAudio s audio_data).2 = s := by
  have key : transcribeAudio s audio_data = ("", s) := by
    rcases h with h | ⟨e, h, he⟩
    · exact transcribeAudio_null s audio_data h
    · exact transcribeAudio_not_initialized s audio_data e h he
  rw [key]
  exact ⟨rfl, fun hne => WhisperEngine.placeholderTranscription_ne_empty hne.symm, rfl⟩

theorem transcribeAudio_uninitialized_fails_witness :
    ((⟨some ⟨false⟩, []⟩ : Session).g_whisper_engine = none ∨
      ∃ e, (⟨some ⟨false⟩, []⟩ : Session).g_whisper_engine = some e ∧ e.initialized_ = false) ∧
    ((transcribeAudio ⟨some ⟨false⟩, []⟩ [1, -2, 3, 4]).1 = "" ∧
      (transcribeAudio ⟨some ⟨false⟩, []⟩ [1, -2, 3, 4]).1
        ≠ WhisperEngine.placeholderTranscription ∧
      (transcribeAudio ⟨some ⟨false⟩, []⟩ [1, -2, 3, 4]).2 = ⟨some ⟨false⟩, []⟩) :=
  ⟨Or.inr ⟨⟨false⟩, rfl, rfl⟩,
    transcribeAudio_uninitialized_fails ⟨some ⟨false⟩, []⟩ [1, -2, 3, 4]
      (Or.inr ⟨⟨false⟩, rfl, rfl⟩)⟩

/-- C2: for every model path and audio byte array, from any state,
`initializeModel` followed by `releaseModel` leaves the global engine pointer
null after running the destructor once, and a following `transcribeAudio`
returns the empty string, not a transcription, without touching any engine:
the state, log included, is unchanged by it. -/
theorem transcribeAudio_after_release_fails (s : Session) (model_path : String)
    (audio_data : List jbyte) :
    (releaseModel (initializeModel s model_path).2).g_whisper_engine = none ∧
    (releaseModel (initializeModel s model_path).2).logcat =
      (initializeModel s model_path).2.logcat ++ [WhisperEngine.LOGI "WhisperEngine destroyed"] ∧
    (transcribeAudio (releaseModel (initializeModel s model_path).2) audio_data).1 = "" ∧
    (transcribeAudio (releaseModel (initializeModel s model_path).2) audio_data).1
      ≠ WhisperEngine.placeholderTranscription ∧
    (transcribeAudio (releaseModel (initializeModel s model_path).2) audio_data).2 =
      releaseModel (initializeModel s model_path).2 := by
  have hnull : (releaseModel (initializeModel s model_path).2).g_whisper_engine = none := by
    rw [releaseModel_eq]
  have key := transcribeAudio_null _ audio_data hnull
  refine ⟨hnull, ?_, ?_, ?_, ?_⟩
  · rw [releaseModel_eq, initializeModel_eq]
  · rw [key]
  · rw [key]
    exact fun hne => WhisperEngine.placeholderTranscription_ne_empty hne.symm
  · rw [key]

/-- C3: `releaseModel` is idempotent. For every state, with or without an
engine, calling it twice gives the same state as calling it once, with the
global engine pointer null; the second call changes nothing (no destructor
runs), and the only line either call may log is the destructor's info line,
never an error. -/
theorem releaseModel_idempotent (s : Session) :
    releaseModel (releaseModel s) = releaseModel s ∧
    (releaseModel s).g_whisper_engine = none ∧
    (releaseModel s).logcat =
      (match s.g_whisper_engine with
        | some _ => s.logcat ++ [WhisperEngine.LOGI "WhisperEngine destroyed"]
        | none => s.logcat) ∧
    (releaseModel (releaseModel s)).logcat = (releaseModel s).logcat ∧
    (WhisperEngine.LOGI "WhisperEngine destroyed").prio = LogPriority.ANDROID_LOG_INFO := by
  have h1 : releaseModel (releaseModel s) = releaseModel s := by
    rw [releaseModel_eq (releaseModel s), releaseModel_eq s]
  refine ⟨h1, ?_, ?_, ?_, rfl⟩
  · rw [releaseModel_eq]
  · rw [releaseModel_eq]
  · rw [h1]

/-- C8: from every state (engine pointer null, as before the first call or
after a release, or an engine present with either flag value) and for every
model path, `initializeModel` returns true and leaves the global pointer on an
engine with `initialized_ = true`; the constructor runs only when the pointer
was null and no destructor runs, so one engine exists; and the next
`transcribeAudio` returns the non-empty placeholder text. -/
theorem initializeModel_ready (s : Session) (model_path : String) (audio_data : List jbyte) :
    (initializeModel s model_path).1 = true ∧
    (initializeModel s model_path).2.g_whisper_engine = some { initialized_ := true } ∧
    (initializeModel s model_path).2.logcat =
      (match s.g_whisper_engine with
        | none => s.logcat ++ [WhisperEngine.LOGI "WhisperEngine created"]
        | some _ => s.logcat) ++
      [WhisperEngine.LOGI ("Initializing Whisper model from: " ++ model_path),
        WhisperEngine.LOGI "Whisper model initialized successfully"] ∧
    (transcribeAudio (initializeModel s model_path).2 audio_data).1
      = WhisperEngine.placeholderTranscription ∧
    (transcribeAudio (initializeModel s model_path).2 audio_data).1 ≠ "" ∧
    (transcribeAudio (initializeModel s model_path).2 audio_data).2.g_whisper_engine
      = some { initialized_ := true } := by
  have hg : (initializeModel s model_path).2.g_whisper_engine = some { initialized_ := true } := by
    rw [initializeModel_eq]
  have key := transcribeAudio_initialized _ audio_data _ hg rfl
  refine ⟨?_, hg, ?_, ?_, ?_, ?_⟩
  · rw [initializeModel_eq]
  · rw [initializeModel_eq]
  · rw [key]
  · rw [key]
    exact WhisperEngine.placeholderTranscription_ne_empty
  · rw [key]

/-- C9: on an engine with `initialized_ = true`, for every audio buffer, length
and log, `WhisperEngine::transcribe` returns a non-empty string and leaves the
engine unchanged; a second call with the same input on the resulting engine,
and a call on any initialized engine, returns the same string and again leaves
`initialized_` true. -/
theorem WhisperEngine.transcribe_nonempty_deterministic (e e2 : WhisperEngine)
    (audio_data : List jbyte) (length : Nat) (logcat logcat2 : List LogLine)
    (h : e.initialized_ = true) (h2 : e2.initialized_ = true) :
    (e.transcribe audio_data length logcat).1 ≠ "" ∧
    (e.transcribe audio_data length logcat).2.1 = e ∧
    ((e.transcribe audio_data length logcat).2.1.transcribe audio_data length
        (e.transcribe audio_data length logcat).2.2).1
      = (e.transcribe audio_data length logcat).1 ∧
    ((e.transcribe audio_data length logcat).2.1.transcribe audio_data length
        (e.transcribe audio_data length logcat).2.2).2.1.initialized_ = true ∧
    (e2.transcribe audio_data length logcat2).1 = (e.transcribe audio_data length logcat).1 := by
  rw [WhisperEngine.transcribe_of_initialized e audio_data length logcat h]
  dsimp only
  rw [WhisperEngine.transcribe_of_initialized e audio_data length _ h,
    WhisperEngine.transcribe_of_initialized e2 audio_data length logcat2 h2]
  exact ⟨WhisperEngine.placeholderTranscription_ne_empty, rfl, rfl, h, rfl⟩

theorem WhisperEngine.transcribe_nonempty_deterministic_witness :
    ((⟨true⟩ : WhisperEngine).initialized_ = true ∧ (⟨true⟩ : WhisperEngine).initialized_ = true) ∧
    ((WhisperEngine.transcribe ⟨true⟩ [0, 0, -128, 63] 1 []).1 ≠ "" ∧
      (WhisperEngine.transcribe ⟨true⟩ [0, 0, -128, 63] 1 []).2.1 = ⟨true⟩ ∧
      ((WhisperEngine.transcribe ⟨true⟩ [0, 0, -128, 63] 1 []).2.1.transcribe [0, 0, -128, 63] 1
          (WhisperEngine.transcribe ⟨true⟩ [0, 0, -128, 63] 1 []).2.2).1
        = (WhisperEngine.transcribe ⟨true⟩ [0, 0, -128, 63] 1 []).1 ∧
      ((WhisperEngine.transcribe ⟨true⟩ [0, 0, -128, 63] 1 []).2.1.transcribe [0, 0, -128, 63] 1
          (WhisperEngine.transcribe ⟨true⟩ [0, 0, -128, 63] 1 []).2.2).2.1.initialized_ = true ∧
      (WhisperEngine.transcribe ⟨true⟩ [0, 0, -128, 63] 1
          [WhisperEngine.LOGI "WhisperEngine created"]).1
        = (WhisperEngine.transcribe ⟨true⟩ [0, 0, -128, 63] 1 []).1) :=
  ⟨⟨rfl, rfl⟩,
    WhisperEngine.transcribe_nonempty_deterministic ⟨true⟩ ⟨true⟩ [0, 0, -128, 63] 1 []
      [WhisperEngine.LOGI "WhisperEngine created"] rfl rfl⟩

/-- C10: in every state reached from the initial state (engine pointer null) by
a finite sequence of `initializeModel`, `transcribeAudio` and `releaseModel`
calls, an engine behind a non-null global pointer has `initialized_` true, so
the guard `!initialized_` of `WhisperEngine::transcribe` is false there and
`transcribeAudio` returns the placeholder text; hence `transcribeAudio` returns
the empty string if and only if the pointer is null. -/
theorem reachable_engine_initialized (calls : List Call) (audio_data : List jbyte) :
    (∀ e, (runCalls Session.initial calls).g_whisper_engine = some e →
      e.initialized_ = true ∧ (!e.initialized_) = false ∧
      (transcribeAudio (runCalls Session.initial calls) audio_data).1
        = WhisperEngine.placeholderTranscription) ∧
    ((transcribeAudio (runCalls Session.initial calls) audio_data).1 = "" ↔
      (runCalls Session.initial calls).g_whisper_engine = none) := by
  have inv := EngineInitialized.runCalls calls Session.initial EngineInitialized.initial
  constructor
  · intro e he
    have hi := inv e he
    refine ⟨hi, by simp [hi], ?_⟩
    rw [transcribeAudio_initialized _ audio_data e he hi]
  · constructor
    · intro hres
      cases hg : (runCalls Session.initial calls).g_whisper_engine with
      | none => rfl
      | some e =>
        rw [transcribeAudio_initialized _ audio_data e hg (inv e hg)] at hres
        exact absurd hres WhisperEngine.placeholderTranscription_ne_empty
    · intro hg
      rw [transcribeAudio_null _ audio_data hg]

/-! ## Facts about the array heap and audio_utils.cpp -/

theorem List.set_eq_self_of_getElem? {α : Type} (l : List α) (i : Nat) (x : α)
    (h : l[i]? = some x) : l.set i x = l := by
  induction l generalizing i with
  | nil => simp
  | cons a as ih =>
    cases i with
    | zero => simp at h; simp [h]
    | succ j => simp at h; simp [ih j h]

theorem List.lt_length_of_getElem? {α : Type} (l : List α) (i : Nat) (x : α)
    (h : l[i]? = some x) : i < l.length := by
  obtain ⟨hlt, _⟩ := List.getElem?_eq_some.mp h
  exact hlt

theorem List.getElem?_append_one {α : Type} (l : List α) (i : Nat) (x y : α)
    (h : l[i]? = some x) : (l ++ [y])[i]? = some x := by
  rw [List.getElem?_append_left (List.lt_length_of_getElem? l i x h), h]

namespace AudioProcessor

/-- The whole effect of `nativeResampleAudio` on a live input array: one log
line, one new array holding the input bytes, the input array untouched. -/
theorem nativeResampleAudio_eq (env : JNIEnv) (input_audio : jbyteArray)
    (input_rate output_rate : jint) (bytes : List jbyte)
    (h : env.arrays[input_audio]? = some bytes) :
    nativeResampleAudio env input_audio input_rate output_rate =
      some (env.arrays.length,
        { arrays := env.arrays ++ [bytes],
          logcat := env.logcat ++ [LOGI ("Native audio resampling: " ++ toString input_rate
            ++ " -> " ++ toString output_rate)] }) := by
  have h1 : (env.arrays ++ [List.replicate bytes.length (0 : jbyte)])[input_audio]? = some bytes :=
    List.getElem?_append_one _ _ _ _ h
  have h2 : (env.arrays ++ [List.replicate bytes.length (0 : jbyte)])[env.arrays.length]?
      = some (List.replicate bytes.length 0) := by simp
  have h3 : (env.arrays ++ [bytes])[input_audio]? = some bytes :=
    List.getElem?_append_one _ _ _ _ h
  simp [nativeResampleAudio, JNIEnv.log, JNIEnv.GetArrayLength, JNIEnv.NewByteArray,
    JNIEnv.GetByteArrayElements, JNIEnv.SetByteArrayRegion, JNIEnv.ReleaseByteArrayElements,
    h, h1, h2, h3, List.set_eq_self_of_getElem? _ _ _ h3]

theorem resampledBytes_eq (env : JNIEnv) (input_audio : jbyteArray)
    (input_rate output_rate : jint) (bytes : List jbyte)
    (h : env.arrays[input_audio]? = some bytes) :
    resampledBytes env input_audio input_rate output_rate = some bytes := by
  simp [resampledBytes, nativeResampleAudio_eq env input_audio input_rate output_rate bytes h]

theorem nativeCalculateEnergy_eq (env : JNIEnv) (audio_data : jbyteArray) :
    nativeCalculateEnergy env audio_data
      = (1 / 2, { env with logcat := env.logcat ++ [LOGI "Calculating audio energy"] }) := by
  simp only [nativeCalculateEnergy, JNIEnv.log, Prod.mk.injEq, and_true]
  norm_num

theorem lengthWithinOne_same_length (n : Nat) (input_rate output_rate : jint)
    (hi : 0 < input_rate) :
    lengthWithinOne n n input_rate output_rate ↔
      (n : Int) * |output_rate - input_rate| ≤ input_rate := by
  unfold lengthWithinOne
  have hi' : (0 : ℚ) < (input_rate : ℚ) := by exact_mod_cast hi
  have e : (n : ℚ) - (n : ℚ) * (output_rate : ℚ) / (input_rate : ℚ)
      = ((n : ℚ) * ((input_rate : ℚ) - (output_rate : ℚ))) / (input_rate : ℚ) := by
    field_simp
    ring
  rw [e, abs_div, abs_of_pos hi', div_le_one hi', abs_mul,
    abs_of_nonneg (Nat.cast_nonneg n), abs_sub_comm]
  constructor
  · intro h
    exact_mod_cast h
  · intro h
    exact_mod_cast h

/-! ## Properties of the `AudioProcessor` surface -/

/-- C4: resampling to the same rate is the identity. For every live input
array and every rate `r`, `nativeResampleAudio(input, r, r)` returns a
reference that named no array before the call (a newly allocated array,
different from the input), whose length is the input length and whose bytes
equal the input bytes at every index; the input array is left as it was. -/
theorem nativeResampleAudio_same_rate_identity (env : JNIEnv) (input_audio : jbyteArray)
    (r : jint) (bytes : List jbyte) (h : env.arrays[input_audio]? = some bytes) :
    ∃ result env1 out,
      nativeResampleAudio env input_audio r r = some (result, env1) ∧
      env.arrays[result]? = none ∧ result ≠ input_audio ∧
      env1.arrays[result]? = some out ∧
      out.length = bytes.length ∧
      (∀ i : Nat, out[i]? = bytes[i]?) ∧
      env1.arrays[input_audio]? = some bytes := by
  refine ⟨env.arrays.length, _, bytes, nativeResampleAudio_eq env input_audio r r bytes h,
    ?_, ?_, ?_, rfl, fun _ => rfl, ?_⟩
  · simp
  · exact (Nat.ne_of_lt (List.lt_length_of_getElem? _ _ _ h)).symm
  · simp
  · exact List.getElem?_append_one _ _ _ _ h

theorem nativeResampleAudio_same_rate_identity_witness :
    (⟨[[1, -2, 3, 4]], []⟩ : JNIEnv).arrays[0]? = some [1, -2, 3, 4] ∧
    ∃ result env1 out,
      nativeResampleAudio ⟨[[1, -2, 3, 4]], []⟩ 0 16000 16000 = some (result, env1) ∧
      (⟨[[1, -2, 3, 4]], []⟩ : JNIEnv).arrays[result]? = none ∧ result ≠ 0 ∧
      env1.arrays[result]? = some out ∧
      out.length = ([1, -2, 3, 4] : List jbyte).length ∧
      (∀ i : Nat, out[i]? = ([1, -2, 3, 4] : List jbyte)[i]?) ∧
      env1.arrays[0]? = some [1, -2, 3, 4] :=
  ⟨rfl, nativeResampleAudio_same_rate_identity ⟨[[1, -2, 3, 4]], []⟩ 0 16000 [1, -2, 3, 4] rfl⟩

/-- C5, as stated, fails: a 4-byte input resampled from 16000 to 48000 comes
back with 4 bytes, while `4 * 48000 / 16000 = 12`. -/
theorem nativeResampleAudio_length_counterexample :
    (⟨[[1, -2, 3, 4]], []⟩ : JNIEnv).arrays[0]? = some [1, -2, 3, 4] ∧
    (0 : jint) < 16000 ∧ (0 : jint) < 48000 ∧
    ∃ out, resampledBytes ⟨[[1, -2, 3, 4]], []⟩ 0 16000 48000 = some out ∧
      out.length = 4 ∧
      ¬ lengthWithinOne out.length ([1, -2, 3, 4] : List jbyte).length 16000 48000 := by
  refine ⟨rfl, by decide, by decide, [1, -2, 3, 4], by decide, rfl, ?_⟩
  norm_num [lengthWithinOne]

/-- C5, amended: for every non-empty live input and all rates with
`input_rate > 0` and `output_rate > 0`, the output of `nativeResampleAudio` has
exactly `input_length` bytes; it is within one of
`input_length * output_rate / input_rate` exactly when
`input_length * |output_rate - input_rate| ≤ input_rate`, in particular
whenever the two rates are equal. -/
theorem nativeResampleAudio_output_length (env : JNIEnv) (input_audio : jbyteArray)
    (input_rate output_rate : jint) (bytes : List jbyte)
    (h : env.arrays[input_audio]? = some bytes) (_hne : bytes ≠ [])
    (hi : 0 < input_rate) (_ho : 0 < output_rate) :
    ∃ out, resampledBytes env input_audio input_rate output_rate = some out ∧
      out.length = bytes.length ∧
      (lengthWithinOne out.length bytes.length input_rate output_rate ↔
        (bytes.length : Int) * |output_rate - input_rate| ≤ input_rate) ∧
      (output_rate = input_rate →
        lengthWithinOne out.length bytes.length input_rate output_rate) := by
  refine ⟨bytes, resampledBytes_eq env input_audio input_rate output_rate bytes h, rfl,
    lengthWithinOne_same_length _ _ _ hi, ?_⟩
  intro heq
  rw [lengthWithinOne_same_length _ _ _ hi, heq]
  simp
  exact le_of_lt hi

theorem nativeResampleAudio_output_length_witness :
    ((⟨[[1, -2, 3, 4]], []⟩ : JNIEnv).arrays[0]? = some [1, -2, 3, 4] ∧
      ([1, -2, 3, 4] : List jbyte) ≠ [] ∧ (0 : jint) < 16000 ∧ (0 : jint) < 48000) ∧
    ∃ out, resampledBytes ⟨[[1, -2, 3, 4]], []⟩ 0 16000 48000 = some out ∧
      out.length = ([1, -2, 3, 4] : List jbyte).length ∧
      (lengthWithinOne out.length ([1, -2, 3, 4] : List jbyte).length 16000 48000 ↔
        (([1, -2, 3, 4] : List jbyte).length : Int) * |(48000 : jint) - 16000| ≤ 16000) ∧
      ((48000 : jint) = 16000 →
        lengthWithinOne out.length ([1, -2, 3, 4] : List jbyte).length 16000 48000) :=
  ⟨⟨rfl, by decide, by decide, by decide⟩,
    nativeResampleAudio_output_length ⟨[[1, -2, 3, 4]], []⟩ 0 16000 48000 [1, -2, 3, 4] rfl
      (by decide) (by decide) (by decide)⟩

/-- C6, as stated, fails: with `output_rate = 0` the call returns a result
array holding the 4 input bytes, and on a zero-length input it returns a
zero-length result array; neither call fails. -/
theorem nativeResampleAudio_rejects_counterexample :
    ((0 : jint) ≤ 0 ∧
      (nativeResampleAudio ⟨[[1, -2, 3, 4]], []⟩ 0 16000 0).isSome = true ∧
      resampledBytes ⟨[[1, -2, 3, 4]], []⟩ 0 16000 0 = some [1, -2, 3, 4]) ∧
    ((⟨[[]], []⟩ : JNIEnv).arrays[0]? = some [] ∧
      (nativeResampleAudio ⟨[[]], []⟩ 0 16000 8000).isSome = true ∧
      resampledBytes ⟨[[]], []⟩ 0 16000 8000 = some []) := by
  refine ⟨⟨by decide, by decide, by decide⟩, ⟨rfl, by decide, by decide⟩⟩

/-- C6, amended: `nativeResampleAudio` validates nothing. For every live input
array with `output_rate <= 0`, and for every live input array of length zero,
it returns a newly allocated result array holding a copy of the input bytes
(of length zero for a zero-length input) and logs one info line. -/
theorem nativeResampleAudio_no_validation (env : JNIEnv) (input_audio : jbyteArray)
    (input_rate output_rate : jint) (bytes : List jbyte)
    (h : env.arrays[input_audio]? = some bytes)
    (_hbad : output_rate ≤ 0 ∨ bytes.length = 0) :
    ∃ result env1,
      nativeResampleAudio env input_audio input_rate output_rate = some (result, env1) ∧
      result = env.arrays.length ∧
      env1.arrays[result]? = some bytes ∧
      env1.logcat = env.logcat ++ [LOGI ("Native audio resampling: " ++ toString input_rate
        ++ " -> " ++ toString output_rate)] := by
  refine ⟨env.arrays.length, _,
    nativeResampleAudio_eq env input_audio input_rate output_rate bytes h, rfl, ?_, rfl⟩
  simp

theorem nativeResampleAudio_no_validation_witness :
    ((⟨[[1, -2, 3, 4]], []⟩ : JNIEnv).arrays[0]? = some [1, -2, 3, 4] ∧
      ((-1 : jint) ≤ 0 ∨ ([1, -2, 3, 4] : List jbyte).length = 0)) ∧
    ∃ result env1,
      nativeResampleAudio ⟨[[1, -2, 3, 4]], []⟩ 0 16000 (-1) = some (result, env1) ∧
      result = (⟨[[1, -2, 3, 4]], []⟩ : JNIEnv).arrays.length ∧
      env1.arrays[result]? = some [1, -2, 3, 4] ∧
      env1.logcat = (⟨[[1, -2, 3, 4]], []⟩ : JNIEnv).logcat ++
        [LOGI ("Native audio resampling: " ++ toString (16000 : jint)
          ++ " -> " ++ toString (-1 : jint))] :=
  ⟨⟨rfl, Or.inl (by decide)⟩,
    nativeResampleAudio_no_validation ⟨[[1, -2, 3, 4]], []⟩ 0 16000 (-1) [1, -2, 3, 4] rfl
      (Or.inl (by decide))⟩

/-- C7, as stated, fails: on a buffer of four zero bytes, and on the empty
buffer, `nativeCalculateEnergy` returns `0.5`, not `0.0`. -/
theorem nativeCalculateEnergy_silent_counterexample :
    ((⟨[[0, 0, 0, 0]], []⟩ : JNIEnv).arrays[0]? = some [0, 0, 0, 0] ∧
      (nativeCalculateEnergy ⟨[[0, 0, 0, 0]], []⟩ 0).1 = 1 / 2 ∧
      (nativeCalculateEnergy ⟨[[0, 0, 0, 0]], []⟩ 0).1 ≠ 0) ∧
    ((⟨[[]], []⟩ : JNIEnv).arrays[0]? = some [] ∧
      (nativeCalculateEnergy ⟨[[]], []⟩ 0).1 ≠ 0) := by
  refine ⟨⟨rfl, ?_, ?_⟩, ⟨rfl, ?_⟩⟩ <;> norm_num [nativeCalculateEnergy]

/-- C7, amended: for every audio buffer whose bytes are all zero (the empty
buffer included), `nativeCalculateEnergy` returns exactly `0.5`, the same dummy
value it returns for every buffer, and logs one info line. -/
theorem nativeCalculateEnergy_silent (env : JNIEnv) (audio_data : jbyteArray)
    (buf : List jbyte) (_h : env.arrays[audio_data]? = some buf)
    (_hz : ∀ b ∈ buf, b = 0) :
    (nativeCalculateEnergy env audio_data).1 = 1 / 2 ∧
    (nativeCalculateEnergy env audio_data).2 =
      { env with logcat := env.logcat ++ [LOGI "Calculating audio energy"] } := by
  rw [nativeCalculateEnergy_eq]
  exact ⟨rfl, rfl⟩

theorem nativeCalculateEnergy_silent_witness :
    ((⟨[[0, 0, 0, 0]], []⟩ : JNIEnv).arrays[0]? = some [0, 0, 0, 0] ∧
      ∀ b ∈ ([0, 0, 0, 0] : List jbyte), b = 0) ∧
    ((nativeCalculateEnergy ⟨[[0, 0, 0, 0]], []⟩ 0).1 = 1 / 2 ∧
      (nativeCalculateEnergy ⟨[[0, 0, 0, 0]], []⟩ 0).2 =
        { (⟨[[0, 0, 0, 0]], []⟩ : JNIEnv) with
          logcat := (⟨[[0, 0, 0, 0]], []⟩ : JNIEnv).logcat
            ++ [LOGI "Calculating audio energy"] }) :=
  ⟨⟨rfl, by decide⟩,
    nativeCalculateEnergy_silent ⟨[[0, 0, 0, 0]], []⟩ 0 [0, 0, 0, 0] rfl (by decide)⟩

end AudioProcessor

end ASR
